/-
Verification of the Twilio-number Telegram bot (main.py) against its
natural-language specification.

The embedding models:
  * the per-user credential store `user_twilio_credentials`
    ({chat_id: {"sid": ..., "token": ..., "client": ...}}) as an association
    list from chat ids to `Session` records;
  * the Twilio `Client` handle as the credential pair it was constructed from;
  * provider-call outcomes (success / TwilioRestException / unexpected
    exception) as an oracle environment, since the provider is an external
    black box;
  * every provider interaction as an explicit `ProviderCall` event appended to
    a trace, so "no provider operation is invoked" is a statement about the
    trace;
  * Python `str.startswith` and slicing `s[n:]` as operations on `String`.
-/
import Mathlib

namespace TwixdBot

/-- Python `str.startswith`: the candidate must match at position 0. -/
def pyStartswith (s pre : String) : Bool :=
  pre.data.isPrefixOf s.data

/-- A Twilio client handle, identified by the credential pair it was
constructed from (`Client(sid, token)` in main.py line 107). -/
structure Client where
  sid : String
  token : String
deriving DecidableEq, Repr

/-- One per-user record of `user_twilio_credentials` (main.py line 81):
`{"sid": ..., "token": ...}` with an optional cached `"client"` key. The
`sid`/`token` keys are always present (the only creation site, line 320, sets
both); the `"client"` key is optional. -/
structure Session where
  sid : String
  token : String
  client : Option Client
deriving DecidableEq, Repr

/-- The module-level dict `user_twilio_credentials`, keyed by chat id. -/
abbrev Store := List (Int × Session)

/-- Dict lookup `user_twilio_credentials[chat_id]` / `chat_id in ...`. -/
def findSession : Store → Int → Option Session
  | [], _ => none
  | (k, s) :: rest, cid => if k = cid then some s else findSession rest cid

/-- Dict assignment `user_twilio_credentials[chat_id] = {...}` (line 320). -/
def setSession : Store → Int → Session → Store
  | [], cid, sess => [(cid, sess)]
  | (k, s) :: rest, cid, sess =>
    if k = cid then (cid, sess) :: rest else (k, s) :: setSession rest cid sess

/-- Dict deletion `del user_twilio_credentials[chat_id]` (line 114). -/
def delSession : Store → Int → Store
  | [], _ => []
  | (k, s) :: rest, cid =>
    if k = cid then delSession rest cid else (k, s) :: delSession rest cid

/-- In-place mutation of the record stored under `cid`. -/
def modifySession : Store → Int → (Session → Session) → Store
  | [], _, _ => []
  | (k, s) :: rest, cid, f =>
    if k = cid then (k, f s) :: modifySession rest cid f
    else (k, s) :: modifySession rest cid f

/-- `user_twilio_credentials[chat_id].pop("client", None)` (line 100):
removes only the cached handle, keeping the credential pair. -/
def popClient (st : Store) (cid : Int) : Store :=
  modifySession st cid fun s => { s with client := none }

/-- `user_twilio_credentials[chat_id]["client"] = client` (line 109). -/
def setClient (st : Store) (cid : Int) (c : Client) : Store :=
  modifySession st cid fun s => { s with client := some c }

/-- Trace of calls made against the Twilio provider. -/
inductive ProviderCall where
  /-- `client.api.accounts(sid).fetch()` — the lightweight auth probe. -/
  | fetchAccount (c : Client) (sid : String)
  /-- `client.incoming_phone_numbers.create(phone_number=...)`. -/
  | createNumber (phone : String)
  /-- `client.incoming_phone_numbers.list(...)`, with optional
  `phone_number=` filter and `limit=`. -/
  | listIncoming (numberFilter : Option String) (limit : Nat)
  /-- `client.incoming_phone_numbers(sid).delete()`. -/
  | deleteNumber (sid : String)
  /-- `client.messages.list(to=..., limit=...)`. -/
  | listMessages (toNumber : String) (limit : Int)
deriving DecidableEq, Repr

/-- Outcomes of the two auth probes `get_twilio_client` may perform. The
provider is a black box, so each probe's outcome is a free parameter. -/
structure ResolveEnv where
  /-- Outcome of the probe on the cached handle (line 95). -/
  cachedProbeOk : Bool
  /-- Outcome of the probe on a freshly constructed client (line 108). -/
  freshProbeOk : Bool

/-- Lines 102-116 of `get_twilio_client`: if a credential pair is stored
(Python truthiness: both strings non-empty at line 105), construct a fresh
client and probe it; on success cache it and return it, on failure delete the
entire session record and return None; with no (non-empty) pair, return None
with no provider call. -/
def get_twilio_client_stored_pair (env : ResolveEnv) (st : Store) (cid : Int)
    (calls : List ProviderCall) : Option Client × Store × List ProviderCall :=
  match findSession st cid with
  | some sess =>
    if sess.sid ≠ "" ∧ sess.token ≠ "" then
      let c : Client := ⟨sess.sid, sess.token⟩
      let calls' := calls ++ [ProviderCall.fetchAccount c sess.sid]
      if env.freshProbeOk then
        (some c, setClient st cid c, calls')
      else
        (none, delSession st cid, calls')
    else
      (none, st, calls)
  | none => (none, st, calls)

/-- `get_twilio_client` (main.py lines 91-116). Returns the resolved client
(if any), the store after the call, and the trace of provider calls made. -/
def get_twilio_client (env : ResolveEnv) (st : Store) (cid : Int) :
    Option Client × Store × List ProviderCall :=
  match findSession st cid with
  | some sess =>
    match sess.client with
    | some c =>
      if env.cachedProbeOk then
        (some c, st, [ProviderCall.fetchAccount c sess.sid])
      else
        get_twilio_client_stored_pair env (popClient st cid) cid
          [ProviderCall.fetchAccount c sess.sid]
    | none => get_twilio_client_stored_pair env st cid []
  | none => (none, st, [])

section StoreLemmas

theorem findSession_setSession_self (st : Store) (cid : Int) (sess : Session) :
    findSession (setSession st cid sess) cid = some sess := by
  induction st with
  | nil => simp [setSession, findSession]
  | cons e rest ih =>
    by_cases h : e.1 = cid
    · simp [setSession, findSession, h]
    · simp [setSession, findSession, h, ih]

theorem findSession_modifySession_self (st : Store) (cid : Int)
    (f : Session → Session) :
    findSession (modifySession st cid f) cid = (findSession st cid).map f := by
  induction st with
  | nil => simp [modifySession, findSession]
  | cons e rest ih =>
    obtain ⟨k, v⟩ := e
    by_cases h : k = cid
    · subst h
      simp [modifySession, findSession]
    · simp [modifySession, findSession, h, ih]

theorem findSession_modifySession_ne (st : Store) (cid cid' : Int)
    (f : Session → Session) (h : cid' ≠ cid) :
    findSession (modifySession st cid f) cid' = findSession st cid' := by
  induction st with
  | nil => simp [modifySession, findSession]
  | cons e rest ih =>
    obtain ⟨k, v⟩ := e
    by_cases he : k = cid
    · subst he
      have hne : k ≠ cid' := fun hx => h hx.symm
      simp [modifySession, findSession, hne, ih]
    · simp [modifySession, findSession, he, ih]

theorem findSession_delSession_self (st : Store) (cid : Int) :
    findSession (delSession st cid) cid = none := by
  induction st with
  | nil => simp [delSession, findSession]
  | cons e rest ih =>
    obtain ⟨k, v⟩ := e
    by_cases h : k = cid
    · subst h
      simpa [delSession, findSession] using ih
    · simpa [delSession, findSession, h] using ih

theorem findSession_delSession_ne (st : Store) (cid cid' : Int)
    (h : cid' ≠ cid) :
    findSession (delSession st cid) cid' = findSession st cid' := by
  induction st with
  | nil => simp [delSession, findSession]
  | cons e rest ih =>
    obtain ⟨k, v⟩ := e
    by_cases he : k = cid
    · subst he
      have hne : k ≠ cid' := fun hx => h hx.symm
      simpa [delSession, findSession, hne] using ih
    · by_cases he' : k = cid'
      · subst he'
        simp [delSession, findSession, he]
      · simpa [delSession, findSession, he, he'] using ih

end StoreLemmas

section StringLemmas

theorem pyStartswith_eq (s pre : String) :
    pyStartswith s pre = pre.data.isPrefixOf s.data := rfl

theorem length_eq_data_length (s : String) : s.length = s.data.length := rfl

/-- Matching a string against its own leading segment always succeeds. -/
theorem pyStartswith_append (pre p : String) :
    pyStartswith (pre ++ p) pre = true := by
  rw [pyStartswith_eq, String.data_append, List.isPrefixOf_iff_prefix]
  exact List.prefix_append pre.data p.data

/-- `isPrefixOf` fails when the very first characters disagree. -/
theorem isPrefixOf_cons_ne {c c' : Char} (l l' : List Char)
    (h : (c == c') = false) :
    List.isPrefixOf (c :: l) (c' :: l') = false := by
  rw [List.isPrefixOf_cons₂, h, Bool.false_and]

/-- Python slicing `data[len(pre):]` recovers exactly the payload of
`pre + payload`. -/
theorem drop_length_append (pre p : String) :
    (pre ++ p).drop pre.length = p := by
  apply String.ext
  rw [String.data_drop, String.data_append, length_eq_data_length,
    List.drop_left]

end StringLemmas

-- Callback data prefixes (main.py lines 84-87).

/-- `BUY_CALLBACK_PREFIX = "buy_"`. -/
def BUY_CALLBACK : String := "buy_"

/-- `RELEASE_CALLBACK_PREFIX = "release_"`. -/
def RELEASE_CALLBACK : String := "release_"

/-- `CHECKSMS_CALLBACK_PREFIX = "sms_"`. -/
def CHECKSMS_CALLBACK : String := "sms_"

/-- `MAIN_MENU_CALLBACK_PREFIX = "menu_"`. -/
def MAIN_MENU_CALLBACK : String := "menu_"

section ResolverSpec

/-- Behavior of the stored-pair phase when a session with a usable
(non-empty) credential pair is present. -/
theorem get_twilio_client_stored_pair_spec (env : ResolveEnv) (st : Store)
    (cid : Int) (calls : List ProviderCall) (sess : Session)
    (hf : findSession st cid = some sess)
    (hsid : sess.sid ≠ "") (htok : sess.token ≠ "") :
    get_twilio_client_stored_pair env st cid calls =
      if env.freshProbeOk then
        (some ⟨sess.sid, sess.token⟩, setClient st cid ⟨sess.sid, sess.token⟩,
         calls ++ [ProviderCall.fetchAccount ⟨sess.sid, sess.token⟩ sess.sid])
      else
        (none, delSession st cid,
         calls ++ [ProviderCall.fetchAccount ⟨sess.sid, sess.token⟩ sess.sid])
    := by
  simp [get_twilio_client_stored_pair, hf, hsid, htok]

/-- Clearing the cached handle keeps the credential pair: the record found
after `popClient` is the old one with `client := none`. -/
theorem findSession_popClient (st : Store) (cid : Int) (sess : Session)
    (hf : findSession st cid = some sess) :
    findSession (popClient st cid) cid = some { sess with client := none } := by
  rw [popClient, findSession_modifySession_self, hf, Option.map_some']

theorem findSession_setClient (st : Store) (cid : Int) (sess : Session)
    (c : Client) (hf : findSession st cid = some sess) :
    findSession (setClient st cid c) cid = some { sess with client := some c }
    := by
  rw [setClient, findSession_modifySession_self, hf, Option.map_some']

/-- **C1.** `get_twilio_client` follows the exact fallback order: (b) a cached
handle is probed with a fetch-own-account call and returned on probe success;
(c,d) on probe failure only the cached handle is discarded and the stored
identifier/secret pair is retained and used to construct a fresh client, which
is probed, cached and returned on success; (d) if that second probe fails the
entire session record is deleted and none is returned; (a,g) with no stored
credential pair, none is returned without any provider call. -/
theorem C1_client_resolver_fallback (env : ResolveEnv) (st : Store)
    (cid : Int) :
    (findSession st cid = none →
      get_twilio_client env st cid = (none, st, [])) ∧
    (∀ sess c, findSession st cid = some sess → sess.client = some c →
      env.cachedProbeOk = true →
      get_twilio_client env st cid =
        (some c, st, [ProviderCall.fetchAccount c sess.sid])) ∧
    (∀ sess c, findSession st cid = some sess → sess.client = some c →
      env.cachedProbeOk = false → sess.sid ≠ "" → sess.token ≠ "" →
      env.freshProbeOk = true →
      (get_twilio_client env st cid).1 = some ⟨sess.sid, sess.token⟩ ∧
      (get_twilio_client env st cid).2.2 =
        [ProviderCall.fetchAccount c sess.sid,
         ProviderCall.fetchAccount ⟨sess.sid, sess.token⟩ sess.sid] ∧
      findSession (get_twilio_client env st cid).2.1 cid =
        some ⟨sess.sid, sess.token, some ⟨sess.sid, sess.token⟩⟩) ∧
    (∀ sess c, findSession st cid = some sess → sess.client = some c →
      env.cachedProbeOk = false → sess.sid ≠ "" → sess.token ≠ "" →
      env.freshProbeOk = false →
      (get_twilio_client env st cid).1 = none ∧
      (get_twilio_client env st cid).2.2 =
        [ProviderCall.fetchAccount c sess.sid,
         ProviderCall.fetchAccount ⟨sess.sid, sess.token⟩ sess.sid] ∧
      findSession (get_twilio_client env st cid).2.1 cid = none ∧
      (∀ cid', cid' ≠ cid →
        findSession (get_twilio_client env st cid).2.1 cid' =
          findSession st cid')) ∧
    (∀ sess, findSession st cid = some sess → sess.client = none →
      sess.sid ≠ "" → sess.token ≠ "" → env.freshProbeOk = true →
      (get_twilio_client env st cid).1 = some ⟨sess.sid, sess.token⟩ ∧
      (get_twilio_client env st cid).2.2 =
        [ProviderCall.fetchAccount ⟨sess.sid, sess.token⟩ sess.sid] ∧
      findSession (get_twilio_client env st cid).2.1 cid =
        some ⟨sess.sid, sess.token, some ⟨sess.sid, sess.token⟩⟩) ∧
    (∀ sess, findSession st cid = some sess → sess.client = none →
      sess.sid ≠ "" → sess.token ≠ "" → env.freshProbeOk = false →
      (get_twilio_client env st cid).1 = none ∧
      (get_twilio_client env st cid).2.2 =
        [ProviderCall.fetchAccount ⟨sess.sid, sess.token⟩ sess.sid] ∧
      findSession (get_twilio_client env st cid).2.1 cid = none) ∧
    (∀ sess, findSession st cid = some sess → sess.client = none →
      (sess.sid = "" ∨ sess.token = "") →
      get_twilio_client env st cid = (none, st, [])) := by
  refine ⟨?_, ?_, ?_, ?_, ?_, ?_, ?_⟩
  · intro hf
    simp [get_twilio_client, hf]
  · intro sess c hf hc hprobe
    simp [get_twilio_client, hf, hc, hprobe]
  · intro sess c hf hc hprobe hsid htok hfresh
    have hpop := findSession_popClient st cid sess hf
    have key : get_twilio_client env st cid =
        (some ⟨sess.sid, sess.token⟩,
         setClient (popClient st cid) cid ⟨sess.sid, sess.token⟩,
         [ProviderCall.fetchAccount c sess.sid,
          ProviderCall.fetchAccount ⟨sess.sid, sess.token⟩ sess.sid]) := by
      simp only [get_twilio_client, hf, hc]
      rw [if_neg (by simp [hprobe])]
      rw [get_twilio_client_stored_pair_spec env _ cid _ _ hpop hsid htok]
      simp [hfresh]
    rw [key]
    refine ⟨rfl, rfl, ?_⟩
    rw [findSession_setClient _ cid _ _ hpop]
  · intro sess c hf hc hprobe hsid htok hfresh
    have hpop := findSession_popClient st cid sess hf
    have key : get_twilio_client env st cid =
        (none, delSession (popClient st cid) cid,
         [ProviderCall.fetchAccount c sess.sid,
          ProviderCall.fetchAccount ⟨sess.sid, sess.token⟩ sess.sid]) := by
      simp only [get_twilio_client, hf, hc]
      rw [if_neg (by simp [hprobe])]
      rw [get_twilio_client_stored_pair_spec env _ cid _ _ hpop hsid htok]
      simp [hfresh]
    rw [key]
    refine ⟨rfl, rfl, findSession_delSession_self _ cid, ?_⟩
    intro cid' hne
    rw [findSession_delSession_ne _ cid cid' hne,
      popClient, findSession_modifySession_ne _ cid cid' _ hne]
  · intro sess hf hc hsid htok hfresh
    have key : get_twilio_client env st cid =
        (some ⟨sess.sid, sess.token⟩,
         setClient st cid ⟨sess.sid, sess.token⟩,
         [ProviderCall.fetchAccount ⟨sess.sid, sess.token⟩ sess.sid]) := by
      simp only [get_twilio_client, hf, hc]
      rw [get_twilio_client_stored_pair_spec env _ cid _ _ hf hsid htok]
      simp [hfresh]
    rw [key]
    exact ⟨rfl, rfl, findSession_setClient _ cid _ _ hf⟩
  · intro sess hf hc hsid htok hfresh
    have key : get_twilio_client env st cid =
        (none, delSession st cid,
         [ProviderCall.fetchAccount ⟨sess.sid, sess.token⟩ sess.sid]) := by
      simp only [get_twilio_client, hf, hc]
      rw [get_twilio_client_stored_pair_spec env _ cid _ _ hf hsid htok]
      simp [hfresh]
    rw [key]
    exact ⟨rfl, rfl, findSession_delSession_self _ cid⟩
  · intro sess hf hc hor
    simp only [get_twilio_client, hf, hc, get_twilio_client_stored_pair]
    rcases hor with h | h <;> rw [if_neg (by simp [h])]

end ResolverSpec

/-- Witness for C1: a concrete session whose cached handle fails its probe
and whose fresh client also fails (case d): the record is deleted and the
resolver returns none after exactly the two probe calls. -/
theorem C1_client_resolver_fallback_witness :
    (get_twilio_client ⟨false, false⟩
      [(1, ⟨"AC1", "tok", some ⟨"AC1", "tok"⟩⟩)] 1).1 = none ∧
    (get_twilio_client ⟨false, false⟩
      [(1, ⟨"AC1", "tok", some ⟨"AC1", "tok"⟩⟩)] 1).2.2 =
      [ProviderCall.fetchAccount ⟨"AC1", "tok"⟩ "AC1",
       ProviderCall.fetchAccount ⟨"AC1", "tok"⟩ "AC1"] ∧
    findSession (get_twilio_client ⟨false, false⟩
      [(1, ⟨"AC1", "tok", some ⟨"AC1", "tok"⟩⟩)] 1).2.1 1 = none := by
  have h := (C1_client_resolver_fallback ⟨false, false⟩
    [(1, ⟨"AC1", "tok", some ⟨"AC1", "tok"⟩⟩)] 1).2.2.2.1
    ⟨"AC1", "tok", some ⟨"AC1", "tok"⟩⟩ ⟨"AC1", "tok"⟩
    (by decide) (by decide) (by decide) (by decide) (by decide) (by decide)
  exact ⟨h.1, h.2.1, h.2.2.1⟩

-- --- The /configure command handler ---

/-- The possible replies of `configure_twilio` (lines 298-329). -/
inductive ConfigureReply where
  /-- "Incorrect Usage" (argument count ≠ 2, lines 301-309). -/
  | usage
  /-- "Invalid Account SID Format" (lines 312-318). -/
  | badFormat
  /-- "configured and validated successfully" (line 323). -/
  | success
  /-- "Authentication Failed" (lines 324-329). -/
  | authFailed
deriving DecidableEq, Repr

/-- `configure_twilio` (main.py lines 298-329): with exactly two arguments
and a well-formed account SID, store the pair and immediately attempt
resolution via `get_twilio_client`; report success iff it resolves. -/
def configure_twilio (env : ResolveEnv) (st : Store) (cid : Int)
    (args : List String) : ConfigureReply × Store × List ProviderCall :=
  match args with
  | [account_sid, auth_token] =>
    if pyStartswith account_sid "AC" = false ∨ account_sid.length ≠ 34 then
      (.badFormat, st, [])
    else
      match get_twilio_client env
          (setSession st cid ⟨account_sid, auth_token, none⟩) cid with
      | (some _, st2, calls) => (.success, st2, calls)
      | (none, st2, calls) => (.authFailed, st2, calls)
  | _ => (.usage, st, [])

/-- **C5.** For every malformed account identifier (wrong prefix or wrong
length), `configure_twilio` rejects with the format message, makes no
provider call, and returns the store unchanged. -/
theorem C5_configure_rejects_malformed (env : ResolveEnv) (st : Store)
    (cid : Int) (sid tok : String)
    (h : pyStartswith sid "AC" = false ∨ sid.length ≠ 34) :
    configure_twilio env st cid [sid, tok] =
      (ConfigureReply.badFormat, st, []) := by
  simp only [configure_twilio]
  rw [if_pos h]

/-- Witness for C5: identifier with the wrong prefix, and identifier with
the right prefix but wrong length. -/
theorem C5_configure_rejects_malformed_witness :
    configure_twilio ⟨true, true⟩ [] 1 ["XX123", "tok"] =
      (ConfigureReply.badFormat, [], []) ∧
    configure_twilio ⟨true, true⟩ [] 1 ["ACshort", "tok"] =
      (ConfigureReply.badFormat, [], []) :=
  ⟨C5_configure_rejects_malformed ⟨true, true⟩ [] 1 "XX123" "tok"
      (Or.inl (by decide)),
   C5_configure_rejects_malformed ⟨true, true⟩ [] 1 "ACshort" "tok"
      (Or.inr (by decide))⟩

/-- Counterexample for C2 as stated: configure with a well-formed SID whose
resolution fails authentication reports the failure, but the stored
credential pair is NOT retained — the whole session record is gone. -/
theorem C2_configure_counterexample :
    (configure_twilio ⟨true, false⟩ [] 1
      ["ACxxxxxxxxxxxxxxxxxxxxxxxxxxxxxxxx", "badtoken"]).1 =
      ConfigureReply.authFailed ∧
    findSession (configure_twilio ⟨true, false⟩ [] 1
      ["ACxxxxxxxxxxxxxxxxxxxxxxxxxxxxxxxx", "badtoken"]).2.1 1 = none := by
  decide

/-- **C2 (amended).** When configure is called with a well-formed identifier
and a non-empty secret but the immediate resolution attempt fails
authentication, the operation reports authentication failure and the failed
resolution deletes the just-stored session record (identifier and secret
included), so the user must re-run configure to store credentials again. -/
theorem C2_configure_auth_failure_deletes (env : ResolveEnv) (st : Store)
    (cid : Int) (sid tok : String)
    (hpre : pyStartswith sid "AC" = true) (hlen : sid.length = 34)
    (htok : tok ≠ "") (hfresh : env.freshProbeOk = false) :
    (configure_twilio env st cid [sid, tok]).1 = ConfigureReply.authFailed ∧
    findSession (configure_twilio env st cid [sid, tok]).2.1 cid = none := by
  have hsid : sid ≠ "" := by
    intro hx
    rw [hx] at hlen
    exact absurd hlen (by decide)
  have hfind := findSession_setSession_self st cid ⟨sid, tok, none⟩
  have hkey : get_twilio_client env (setSession st cid ⟨sid, tok, none⟩) cid =
      (none, delSession (setSession st cid ⟨sid, tok, none⟩) cid,
       [ProviderCall.fetchAccount ⟨sid, tok⟩ sid]) := by
    simp only [get_twilio_client, hfind]
    rw [get_twilio_client_stored_pair_spec env _ cid _ _ hfind hsid htok]
    simp [hfresh]
  simp only [configure_twilio]
  rw [if_neg (by simp [hpre, hlen]), hkey]
  exact ⟨rfl, findSession_delSession_self _ cid⟩

/-- Witness for C2's amended theorem at a concrete well-formed SID. -/
theorem C2_configure_auth_failure_deletes_witness :
    (configure_twilio ⟨true, false⟩ [] 1
      ["ACyyyyyyyyyyyyyyyyyyyyyyyyyyyyyyyy", "tok"]).1 =
      ConfigureReply.authFailed ∧
    findSession (configure_twilio ⟨true, false⟩ [] 1
      ["ACyyyyyyyyyyyyyyyyyyyyyyyyyyyyyyyy", "tok"]).2.1 1 = none :=
  C2_configure_auth_failure_deletes ⟨true, false⟩ [] 1
    "ACyyyyyyyyyyyyyyyyyyyyyyyyyyyyyyyy" "tok"
    (by decide) (by decide) (by decide) rfl

-- --- The require_twilio_config decorator ---

/-- The "configure first" message of `require_twilio_config`
(main.py lines 233-239), with the canonical configure instructions. -/
def CONFIG_NEEDED_MESSAGE : String :=
  "🔒 *Twilio Credentials Needed*\n\nIt looks like your Twilio credentials are not set or are invalid. Please use the /configure command first:\n`/configure <YOUR_ACCOUNT_SID> <YOUR_AUTH_TOKEN>`"

/-- Result of running a handler wrapped by `require_twilio_config`. -/
inductive Guarded (α : Type) where
  /-- The decorator replied with the configure-first message and did not run
  the wrapped handler. -/
  | configFirst (msg : String)
  /-- The wrapped handler ran and produced `a`. -/
  | ran (a : α)
deriving DecidableEq, Repr

/-- The `require_twilio_config` decorator (main.py lines 227-242): resolve
a client for the chat id; if none resolves, reply with the configure-first
message and do not run the wrapped handler. -/
def require_twilio_config {α : Type} (env : ResolveEnv) (st : Store)
    (cid : Int)
    (handler : Client → Store → α × Store × List ProviderCall) :
    Guarded α × Store × List ProviderCall :=
  match get_twilio_client env st cid with
  | (some c, st1, calls) =>
    (Guarded.ran (handler c st1).1, (handler c st1).2.1,
     calls ++ (handler c st1).2.2)
  | (none, st1, calls) => (Guarded.configFirst CONFIG_NEEDED_MESSAGE, st1, calls)

/-- **C6.** For every user with no stored session record, every command
wrapped by `require_twilio_config` (search, buy, list owned, release,
check sms) short-circuits with the configure-first message containing the
canonical configure instructions, never runs the wrapped handler, and makes
no provider call at all. -/
theorem C6_no_session_short_circuit {α : Type} (env : ResolveEnv) (st : Store)
    (cid : Int)
    (handler : Client → Store → α × Store × List ProviderCall)
    (h : findSession st cid = none) :
    require_twilio_config env st cid handler =
      (Guarded.configFirst CONFIG_NEEDED_MESSAGE, st, []) := by
  have key : get_twilio_client env st cid = (none, st, []) := by
    simp [get_twilio_client, h]
  simp only [require_twilio_config, key]

/-- Witness for C6: empty store, a trivial wrapped handler. -/
theorem C6_no_session_short_circuit_witness :
    require_twilio_config (α := Nat) ⟨true, true⟩ [] 7
      (fun _ st => (0, st, [ProviderCall.createNumber "+1"])) =
      (Guarded.configFirst CONFIG_NEEDED_MESSAGE, [], []) :=
  C6_no_session_short_circuit ⟨true, true⟩ [] 7
    (fun _ st => (0, st, [ProviderCall.createNumber "+1"])) rfl

-- --- Provider operations (the _internal_* helpers) ---

/-- Outcome of one provider call: success, a `TwilioRestException` carrying
an error code and the resolved human-readable message text
(`e.details.get("message", str(e)) if e.details else str(e)`), or any other
unexpected exception. -/
inductive TwilioOutcome (α : Type) where
  | ok (a : α)
  | twilioErr (code : Int) (msg : String)
  | unexpected
deriving DecidableEq, Repr

/-- What a purchased-number record exposes (line 148-152). -/
structure PurchasedRec where
  friendly_name : String
  phone_number : String
  sid : String
deriving DecidableEq, Repr

/-- What an owned-number record exposes (lines 182-187, 439-446). -/
structure OwnedRec where
  phone_number : String
  friendly_name : String
  sid : String
deriving DecidableEq, Repr

/-- What a message record exposes (lines 209-217). `date_sent` holds the
already-formatted timestamp, or none for a missing date. -/
structure MsgRec where
  from_ : String
  direction : String
  status : String
  body : String
  date_sent : Option String
  sid : String
deriving DecidableEq, Repr

/-- Black-box outcomes of the provider operations used by the internal
helpers. -/
structure OpEnv where
  /-- `client.incoming_phone_numbers.create(phone_number=...)`. -/
  create_number : String → TwilioOutcome PurchasedRec
  /-- `client.incoming_phone_numbers.list(...)` with optional
  `phone_number=` filter and `limit=`. -/
  list_incoming : Option String → Nat → TwilioOutcome (List OwnedRec)
  /-- `client.incoming_phone_numbers(sid).delete()`. -/
  delete_number : String → TwilioOutcome Unit
  /-- `client.messages.list(to=..., limit=...)`. -/
  list_messages : String → Int → TwilioOutcome (List MsgRec)

/-- A Python return value of the internal helpers: either a single string,
or the 2-tuple `(message, None)` that the TwilioRestException branches of
release/check-sms return (lines 191 and 221). -/
inductive PyRet where
  | str (s : String)
  | pairNone (s : String)
deriving DecidableEq, Repr

/-- `_internal_buy_number` (main.py lines 144-161). -/
def _internal_buy_number (env : OpEnv) (phone : String) :
    PyRet × List ProviderCall :=
  match env.create_number phone with
  | .ok r =>
    (.str ("🎉 Successfully purchased number: *" ++ r.friendly_name ++ "* (`"
      ++ r.phone_number ++ "`)\n   SID: `" ++ r.sid ++ "`"),
     [ProviderCall.createNumber phone])
  | .twilioErr code m =>
    let base := "❌ Error buying number `" ++ phone ++ "`: _" ++ m ++ "_"
    (.str (if code = 21452 then
        base ++
          "\n   _This number might not be available, or there could be account restrictions._"
      else base),
     [ProviderCall.createNumber phone])
  | .unexpected =>
    (.str ("❗ An unexpected error occurred while trying to buy `" ++ phone
      ++ "`."),
     [ProviderCall.createNumber phone])

/-- `_internal_list_my_numbers` (main.py lines 163-176). Returns the
OperationResult pair (message?, records?). -/
def _internal_list_my_numbers (env : OpEnv) :
    (Option String × Option (List OwnedRec)) × List ProviderCall :=
  match env.list_incoming none 20 with
  | .ok [] =>
    ((some "ℹ️ You don\'t own any Twilio numbers yet.", none),
     [ProviderCall.listIncoming none 20])
  | .ok ns => ((none, some ns), [ProviderCall.listIncoming none 20])
  | .twilioErr _ m =>
    ((some ("❌ Error listing your numbers: _" ++ m ++ "_"), none),
     [ProviderCall.listIncoming none 20])
  | .unexpected =>
    ((some "❗ An unexpected error occurred while listing your numbers.", none),
     [ProviderCall.listIncoming none 20])

/-- `_internal_release_number` (main.py lines 178-194): exact-match lookup
(limit 1) before deletion; the TwilioRestException branch returns the
2-tuple `(message, None)` (line 191). -/
def _internal_release_number (env : OpEnv) (phone : String) :
    PyRet × List ProviderCall :=
  match env.list_incoming (some phone) 1 with
  | .ok [] =>
    (.str ("❓ Number `" ++ phone ++ "` not found in your account."),
     [ProviderCall.listIncoming (some phone) 1])
  | .ok (n :: _) =>
    match env.delete_number n.sid with
    | .ok _ =>
      (.str ("🗑️ Successfully released number: `" ++ phone ++ "`"),
       [ProviderCall.listIncoming (some phone) 1,
        ProviderCall.deleteNumber n.sid])
    | .twilioErr _ m =>
      (.pairNone ("❌ Error releasing number `" ++ phone ++ "`: _" ++ m ++ "_"),
       [ProviderCall.listIncoming (some phone) 1,
        ProviderCall.deleteNumber n.sid])
    | .unexpected =>
      (.str ("❗ An unexpected error occurred while releasing `" ++ phone
        ++ "`."),
       [ProviderCall.listIncoming (some phone) 1,
        ProviderCall.deleteNumber n.sid])
  | .twilioErr _ m =>
    (.pairNone ("❌ Error releasing number `" ++ phone ++ "`: _" ++ m ++ "_"),
     [ProviderCall.listIncoming (some phone) 1])
  | .unexpected =>
    (.str ("❗ An unexpected error occurred while releasing `" ++ phone
      ++ "`."),
     [ProviderCall.listIncoming (some phone) 1])

/-- The loop body of `_internal_check_sms` (main.py lines 209-217):
formats one message record. -/
def format_sms_record (m : MsgRec) : String :=
  let direction := if m.direction = "inbound" then "⬅️ From" else "➡️ To"
  let status_emoji :=
    if m.status = "delivered" ∨ m.status = "received" ∨ m.status = "sent"
      then "✅"
    else if m.status = "queued" ∨ m.status = "accepted" ∨ m.status = "sending"
      then "⏳"
    else "❌"
  status_emoji ++ " " ++ direction ++ ": `" ++ m.from_ ++ "`\n   🗓️ _Sent: "
    ++ (match m.date_sent with | some d => d | none => "N/A")
    ++ "_\n   📜 Body: " ++ m.body ++ "\n   🆔 SID: `" ++ m.sid ++ "`\n---\n"

/-- `_internal_check_sms` (main.py lines 196-224): an ownership lookup
(exact match, limit 1) guards the message fetch; the TwilioRestException
branch returns the 2-tuple `(message, None)` (line 221). -/
def _internal_check_sms (env : OpEnv) (phone : String) (limit : Int) :
    PyRet × List ProviderCall :=
  match env.list_incoming (some phone) 1 with
  | .ok [] =>
    (.str ("🤔 You do not seem to own the number `" ++ phone
      ++ "`, or it\'s not a Twilio number in your account."),
     [ProviderCall.listIncoming (some phone) 1])
  | .ok (_ :: _) =>
    match env.list_messages phone limit with
    | .ok [] =>
      (.str ("📪 No recent SMS messages found for `" ++ phone ++ "` (last "
        ++ toString limit ++ ")."),
       [ProviderCall.listIncoming (some phone) 1,
        ProviderCall.listMessages phone limit])
    | .ok msgs =>
      (.str (msgs.foldl (fun acc m => acc ++ format_sms_record m)
        ("💬 Recent SMS for *" ++ phone ++ "* (last " ++ toString limit
          ++ "):\n\n")),
       [ProviderCall.listIncoming (some phone) 1,
        ProviderCall.listMessages phone limit])
    | .twilioErr _ m =>
      (.pairNone ("❌ Error checking SMS for `" ++ phone ++ "`: _" ++ m
        ++ "_"),
       [ProviderCall.listIncoming (some phone) 1,
        ProviderCall.listMessages phone limit])
    | .unexpected =>
      (.str ("❗ An unexpected error occurred while checking SMS for `"
        ++ phone ++ "`."),
       [ProviderCall.listIncoming (some phone) 1,
        ProviderCall.listMessages phone limit])
  | .twilioErr _ m =>
    (.pairNone ("❌ Error checking SMS for `" ++ phone ++ "`: _" ++ m ++ "_"),
     [ProviderCall.listIncoming (some phone) 1])
  | .unexpected =>
    (.str ("❗ An unexpected error occurred while checking SMS for `"
      ++ phone ++ "`."),
     [ProviderCall.listIncoming (some phone) 1])

/-- **C7.** When the exact-match ownership lookup (limit 1) finds no owned
number, release returns the distinct not-found message and issues no
deletion call: the provider trace is exactly the one lookup. -/
theorem C7_release_not_found (env : OpEnv) (phone : String)
    (h : env.list_incoming (some phone) 1 = .ok []) :
    _internal_release_number env phone =
      (.str ("❓ Number `" ++ phone ++ "` not found in your account."),
       [ProviderCall.listIncoming (some phone) 1]) ∧
    ∀ s, ProviderCall.deleteNumber s ∉ (_internal_release_number env phone).2
    := by
  have key : _internal_release_number env phone =
      (.str ("❓ Number `" ++ phone ++ "` not found in your account."),
       [ProviderCall.listIncoming (some phone) 1]) := by
    simp only [_internal_release_number, h]
  refine ⟨key, ?_⟩
  intro s
  rw [key]
  simp

/-- Witness for C7. -/
theorem C7_release_not_found_witness :
    _internal_release_number
      ⟨fun _ => .unexpected, fun _ _ => .ok [], fun _ => .ok (), fun _ _ => .ok []⟩
      "+15551230000" =
      (.str "❓ Number `+15551230000` not found in your account.",
       [ProviderCall.listIncoming (some "+15551230000") 1]) :=
  (C7_release_not_found
    ⟨fun _ => .unexpected, fun _ _ => .ok [], fun _ => .ok (), fun _ _ => .ok []⟩
    "+15551230000" rfl).1

/-- **C8.** When the ownership lookup finds no owned number, check_sms
returns the distinct not-owned message and never calls the message-listing
operation: the provider trace is exactly the one lookup. -/
theorem C8_check_sms_not_owned (env : OpEnv) (phone : String) (limit : Int)
    (h : env.list_incoming (some phone) 1 = .ok []) :
    _internal_check_sms env phone limit =
      (.str ("🤔 You do not seem to own the number `" ++ phone
        ++ "`, or it\'s not a Twilio number in your account."),
       [ProviderCall.listIncoming (some phone) 1]) ∧
    ∀ n l, ProviderCall.listMessages n l ∉
      (_internal_check_sms env phone limit).2 := by
  have key : _internal_check_sms env phone limit =
      (.str ("🤔 You do not seem to own the number `" ++ phone
        ++ "`, or it\'s not a Twilio number in your account."),
       [ProviderCall.listIncoming (some phone) 1]) := by
    simp only [_internal_check_sms, h]
  refine ⟨key, ?_⟩
  intro n l
  rw [key]
  simp

/-- Witness for C8. -/
theorem C8_check_sms_not_owned_witness :
    _internal_check_sms
      ⟨fun _ => .unexpected, fun _ _ => .ok [], fun _ => .ok (), fun _ _ => .ok []⟩
      "+15551230000" 5 =
      (.str "🤔 You do not seem to own the number `+15551230000`, or it\'s not a Twilio number in your account.",
       [ProviderCall.listIncoming (some "+15551230000") 1]) :=
  (C8_check_sms_not_owned
    ⟨fun _ => .unexpected, fun _ _ => .ok [], fun _ => .ok (), fun _ _ => .ok []⟩
    "+15551230000" 5 rfl).1

/-- **C10 (code bug).** Evaluating the code at a provider fault during the
ownership lookup: both `_internal_release_number` and `_internal_check_sms`
return the 2-tuple `(message, None)` — not the single string their `-> str`
annotations (lines 178, 196) declare. -/
theorem C10_release_check_sms_tuple_return :
    (_internal_release_number
      ⟨fun _ => .unexpected, fun _ _ => .twilioErr 20003 "Authenticate",
       fun _ => .ok (), fun _ _ => .ok []⟩ "+15551230000").1 =
      PyRet.pairNone
        "❌ Error releasing number `+15551230000`: _Authenticate_" ∧
    (_internal_check_sms
      ⟨fun _ => .unexpected, fun _ _ => .twilioErr 20003 "Authenticate",
       fun _ => .ok (), fun _ _ => .ok []⟩ "+15551230000" 5).1 =
      PyRet.pairNone
        "❌ Error checking SMS for `+15551230000`: _Authenticate_" := by
  constructor <;> rfl

-- --- Command handlers and the button-callback dispatcher ---

/-- Start codepoints of the Unicode decimal-digit runs (category Nd,
Unicode 14.0 tables): each run is ten consecutive codepoints carrying the
digit values 0-9. CPython's int() accepts exactly these characters as
digits. -/
def decimalDigitRunStarts : List Nat :=
  [48, 1632, 1776, 1984, 2406, 2534, 2662, 2790, 2918, 3046, 3174, 3302,
   3430, 3558, 3664, 3792, 3872, 4160, 4240, 6112, 6160, 6470, 6608, 6784,
   6800, 6992, 7088, 7232, 7248, 42528, 43216, 43264, 43472, 43504, 43600,
   44016, 65296, 66720, 68912, 69734, 69872, 69942, 70096, 70384, 70736,
   70864, 71248, 71360, 71472, 71904, 72016, 72784, 73040, 73120, 92768,
   92864, 93008, 120782, 120792, 120802, 120812, 120822, 123200, 123632,
   125264, 130032]

/-- The decimal value CPython assigns to a character while parsing int()
(Py_UNICODE_TODECIMAL): some v for any Unicode decimal digit, ASCII or
not, none otherwise. -/
def pyDecimalValue (c : Char) : Option Nat :=
  (decimalDigitRunStarts.find?
    (fun s => decide (s ≤ c.toNat ∧ c.toNat < s + 10))).map
    (fun s => c.toNat - s)

/-- The digit part of CPython's int() grammar after its first digit: more
digits, with a single underscore allowed between two digits (PEP 515); a
trailing or doubled underscore, or any non-digit, rejects. -/
def pyDigitGroupsRest (acc : Nat) : List Char → Option Nat
  | [] => some acc
  | '_' :: c :: rest =>
    match pyDecimalValue c with
    | some d => pyDigitGroupsRest (acc * 10 + d) rest
    | none => none
  | c :: rest =>
    match pyDecimalValue c with
    | some d => pyDigitGroupsRest (acc * 10 + d) rest
    | none => none

/-- CPython's int() digitpart grammar `digit (["_"] digit)*`: one or more
Unicode decimal digits, single underscores permitted between digits. -/
def pyDigitGroups : List Char → Option Nat
  | [] => none
  | c :: rest =>
    match pyDecimalValue c with
    | some d => pyDigitGroupsRest d rest
    | none => none

/-- Models Python `int(s)` on command arguments: an optional ASCII sign,
then one or more Unicode decimal digits with PEP 515 single underscores
allowed between digits. Surrounding whitespace is not modelled: int()
strips exactly the whitespace characters that `str.split()` tokenizes on,
so the dispatcher's arguments never contain any. -/
def pyInt (s : String) : Option Int :=
  let core := if pyStartswith s "-" ∨ pyStartswith s "+" then s.drop 1 else s
  match pyDigitGroups core.data with
  | some mag =>
    if pyStartswith s "-" then some (-(mag : Int)) else some (mag : Int)
  | none => none

/-- Sanity examples pinning `pyInt` to int()'s behavior: PEP 515 grouping
underscores are accepted between digits and rejected elsewhere, and
non-ASCII decimal digits (Arabic-Indic, fullwidth) parse with their digit
values. -/
theorem pyInt_models_int_grammar :
    pyInt "1_0" = some 10 ∧ pyInt "٢١" = some 21 ∧ pyInt "１０" = some 10 ∧
    pyInt "-1_0" = some (-10) ∧ pyInt "1__0" = none ∧
    pyInt "_10" = none ∧ pyInt "10_" = none ∧ pyInt "" = none ∧
    pyInt "+20" = some 20 := by
  decide

/-- The shared invalid-phone-format reply (lines 410-416, 476-482,
514-520). -/
def BAD_PHONE_MESSAGE : String :=
  "⚠️ *Invalid Phone Number Format*\n\nThe phone number should start with `+` (e.g., `+1234567890`)."

/-- A command handler reply: a usage message, a local validation message, or
the result of the invoked internal operation. -/
inductive CmdReply where
  | usage (msg : String)
  | invalid (msg : String)
  | result (r : PyRet)
deriving DecidableEq, Repr

/-- `buy_number_command` body after the auth decorator resolved a client
(main.py lines 396-420). -/
def buy_number_command (env : OpEnv) (args : List String) :
    CmdReply × List ProviderCall :=
  match args with
  | [phone_number_to_buy] =>
    if pyStartswith phone_number_to_buy "+" then
      (.result (_internal_buy_number env phone_number_to_buy).1,
       (_internal_buy_number env phone_number_to_buy).2)
    else (.invalid BAD_PHONE_MESSAGE, [])
  | _ =>
    (.usage "❓*How to Buy a Number*\n\nUsage: `/buy_number <phone_number_to_buy>`\nExample: `/buy_number +1234567890`",
     [])

/-- `check_sms_command` body after the auth decorator resolved a client
(main.py lines 489-524): parse the optional limit first (range 1..20,
ValueError handling), then the leading-plus check, then the operation. -/
def check_sms_command (env : OpEnv) (args : List String) :
    CmdReply × List ProviderCall :=
  match args with
  | [] =>
    (.usage "❓*How to Check SMS*\n\nUsage: `/check_sms <your_twilio_number> [limit]`\nExample: `/check_sms +1234567890 5`",
     [])
  | twilio_number :: rest =>
    let limitStep : Except CmdReply Int :=
      match rest with
      | [] => .ok 5
      | limitArg :: _ =>
        match pyInt limitArg with
        | none => .error (.invalid "⚠️ Invalid limit. It must be a number.")
        | some l =>
          if 1 ≤ l ∧ l ≤ 20 then .ok l
          else .error (.invalid "⚠️ Limit must be between 1 and 20.")
    match limitStep with
    | .error r => (r, [])
    | .ok limit =>
      if pyStartswith twilio_number "+" then
        (.result (_internal_check_sms env twilio_number limit).1,
         (_internal_check_sms env twilio_number limit).2)
      else (.invalid BAD_PHONE_MESSAGE, [])

/-- A reply of `button_callback_handler`, carrying the payload recovered
from the action token of the branch taken. -/
inductive CallbackReply where
  /-- The client gate failed: credentials-needed message (lines 560-569). -/
  | needCreds (msg : String)
  /-- The `menu_` family (lines 571-627), with the recovered sub-action. -/
  | menuReply (action : String)
  /-- The `buy_` branch (lines 629-633). -/
  | buyReply (phone : String) (r : PyRet)
  /-- The `release_` branch (lines 635-639). -/
  | releaseReply (phone : String) (r : PyRet)
  /-- The `sms_` branch (lines 641-646), with its fixed default limit. -/
  | smsReply (phone : String) (limit : Int) (r : PyRet)
  /-- No prefix matched: the handler does nothing. -/
  | noReply
deriving DecidableEq, Repr

/-- The prefix-dispatch chain of `button_callback_handler` (main.py lines
571-646), entered after the client gate: each branch strips its prefix at
position 0 (`data[len(prefix):]`) and hands the payload, unparsed, to the
matching internal operation. `st1`/`rcalls` are the store and call trace
left by the client resolution. -/
def button_callback_branches (oenv : OpEnv) (data : String) (st1 : Store)
    (rcalls : List ProviderCall) : CallbackReply × Store × List ProviderCall :=
  if pyStartswith data MAIN_MENU_CALLBACK then
    let action := data.drop MAIN_MENU_CALLBACK.length
    if action = "my_numbers_action" then
      (.menuReply action, st1, rcalls ++ (_internal_list_my_numbers oenv).2)
    else (.menuReply action, st1, rcalls)
  else if pyStartswith data BUY_CALLBACK then
    let phone := data.drop BUY_CALLBACK.length
    (.buyReply phone (_internal_buy_number oenv phone).1, st1,
     rcalls ++ (_internal_buy_number oenv phone).2)
  else if pyStartswith data RELEASE_CALLBACK then
    let phone := data.drop RELEASE_CALLBACK.length
    (.releaseReply phone (_internal_release_number oenv phone).1, st1,
     rcalls ++ (_internal_release_number oenv phone).2)
  else if pyStartswith data CHECKSMS_CALLBACK then
    let phone := data.drop CHECKSMS_CALLBACK.length
    (.smsReply phone 5 (_internal_check_sms oenv phone 5).1, st1,
     rcalls ++ (_internal_check_sms oenv phone 5).2)
  else (.noReply, st1, rcalls)

/-- `button_callback_handler` (main.py lines 541-646): actions whose prefix
is in `actions_requiring_client` first resolve a client and short-circuit
with the credentials-needed message if none resolves; then the prefix
chain dispatches. -/
def button_callback_handler (renv : ResolveEnv) (oenv : OpEnv) (store : Store)
    (cid : Int) (data : String) : CallbackReply × Store × List ProviderCall :=
  let needsClient :=
    pyStartswith data BUY_CALLBACK || pyStartswith data RELEASE_CALLBACK ||
    pyStartswith data CHECKSMS_CALLBACK ||
    pyStartswith data (MAIN_MENU_CALLBACK ++ "my_numbers_action")
  if needsClient then
    match get_twilio_client renv store cid with
    | (none, st1, calls) => (.needCreds CONFIG_NEEDED_MESSAGE, st1, calls)
    | (some _, st1, calls) => button_callback_branches oenv data st1 calls
  else
    button_callback_branches oenv data store []

section DispatchLemmas

/-- A token whose first character differs from the candidate head never
matches that candidate at position 0. -/
theorem pyStartswith_false_of_head_ne {a b : String} (p : String)
    {c c' : Char} {l l' : List Char}
    (ha : a.data = c :: l) (hb : b.data = c' :: l')
    (h : (c == c') = false) :
    pyStartswith (b ++ p) a = false := by
  rw [pyStartswith_eq, String.data_append, ha, hb, List.cons_append]
  exact isPrefixOf_cons_ne _ _ h

/-- `_internal_buy_number` performs exactly one provider call: the purchase
itself, with the phone argument it was given. -/
theorem buy_number_calls (env : OpEnv) (phone : String) :
    (_internal_buy_number env phone).2 = [ProviderCall.createNumber phone]
    := by
  cases h : env.create_number phone <;> simp [_internal_buy_number, h]

end DispatchLemmas

/-- **C4.** For every payload `p` and every action-token family (buy,
release, check-sms, menu), dispatching the token `prefix + p` recovers
exactly `p`: the prefix is matched only at position 0 and the payload is
everything after it, whatever `p` contains. Stated for a user whose client
resolves, so the buy/release/sms branches are reached. -/
theorem C4_token_round_trip (renv : ResolveEnv) (oenv : OpEnv)
    (store : Store) (cid : Int) (p : String) (c : Client)
    (hres : (get_twilio_client renv store cid).1 = some c) :
    (button_callback_handler renv oenv store cid (BUY_CALLBACK ++ p)).1 =
      CallbackReply.buyReply p (_internal_buy_number oenv p).1 ∧
    (button_callback_handler renv oenv store cid (RELEASE_CALLBACK ++ p)).1 =
      CallbackReply.releaseReply p (_internal_release_number oenv p).1 ∧
    (button_callback_handler renv oenv store cid (CHECKSMS_CALLBACK ++ p)).1 =
      CallbackReply.smsReply p 5 (_internal_check_sms oenv p 5).1 ∧
    (button_callback_handler renv oenv store cid (MAIN_MENU_CALLBACK ++ p)).1 =
      CallbackReply.menuReply p := by
  rcases hg : get_twilio_client renv store cid with ⟨o, st1, calls⟩
  rw [hg] at hres
  simp only at hres
  subst hres
  refine ⟨?_, ?_, ?_, ?_⟩
  · have h1 := pyStartswith_append BUY_CALLBACK p
    have hm : pyStartswith (BUY_CALLBACK ++ p) MAIN_MENU_CALLBACK = false :=
      pyStartswith_false_of_head_ne p rfl rfl (by decide)
    simp [button_callback_handler, button_callback_branches, h1, hm, hg,
      drop_length_append]
  · have h1 := pyStartswith_append RELEASE_CALLBACK p
    have hm : pyStartswith (RELEASE_CALLBACK ++ p) MAIN_MENU_CALLBACK = false :=
      pyStartswith_false_of_head_ne p rfl rfl (by decide)
    have hb : pyStartswith (RELEASE_CALLBACK ++ p) BUY_CALLBACK = false :=
      pyStartswith_false_of_head_ne p rfl rfl (by decide)
    simp [button_callback_handler, button_callback_branches, h1, hm, hb, hg,
      drop_length_append]
  · have h1 := pyStartswith_append CHECKSMS_CALLBACK p
    have hm : pyStartswith (CHECKSMS_CALLBACK ++ p) MAIN_MENU_CALLBACK = false :=
      pyStartswith_false_of_head_ne p rfl rfl (by decide)
    have hb : pyStartswith (CHECKSMS_CALLBACK ++ p) BUY_CALLBACK = false :=
      pyStartswith_false_of_head_ne p rfl rfl (by decide)
    have hr : pyStartswith (CHECKSMS_CALLBACK ++ p) RELEASE_CALLBACK = false :=
      pyStartswith_false_of_head_ne p rfl rfl (by decide)
    simp [button_callback_handler, button_callback_branches, h1, hm, hb, hr,
      hg, drop_length_append]
  · have h1 := pyStartswith_append MAIN_MENU_CALLBACK p
    have hb : pyStartswith (MAIN_MENU_CALLBACK ++ p) BUY_CALLBACK = false :=
      pyStartswith_false_of_head_ne p rfl rfl (by decide)
    have hr : pyStartswith (MAIN_MENU_CALLBACK ++ p) RELEASE_CALLBACK = false :=
      pyStartswith_false_of_head_ne p rfl rfl (by decide)
    have hs : pyStartswith (MAIN_MENU_CALLBACK ++ p) CHECKSMS_CALLBACK = false :=
      pyStartswith_false_of_head_ne p rfl rfl (by decide)
    by_cases hp : p = "my_numbers_action"
    · subst hp
      have ht : pyStartswith (MAIN_MENU_CALLBACK ++ "my_numbers_action")
          (MAIN_MENU_CALLBACK ++ "my_numbers_action") = true := by decide
      have hmm : pyStartswith (MAIN_MENU_CALLBACK ++ "my_numbers_action")
          MAIN_MENU_CALLBACK = true := by decide
      have hd : (MAIN_MENU_CALLBACK ++ "my_numbers_action").drop
          MAIN_MENU_CALLBACK.length = "my_numbers_action" := by decide
      simp [button_callback_handler, button_callback_branches, ht, hmm, hd, hg]
    · cases hN : pyStartswith (MAIN_MENU_CALLBACK ++ p)
          (MAIN_MENU_CALLBACK ++ "my_numbers_action") with
      | false =>
        simp [button_callback_handler, button_callback_branches, h1, hb, hr,
          hs, hN, drop_length_append, hp]
      | true =>
        simp [button_callback_handler, button_callback_branches, h1, hb, hr,
          hs, hN, hg, drop_length_append, hp]

/-- Witness for C4 at the spec's own example: token `release_+15551230000`
strips to payload `+15551230000`. -/
theorem C4_token_round_trip_witness :
    (button_callback_handler ⟨true, true⟩
      ⟨fun _ => .unexpected, fun _ _ => .ok [], fun _ => .ok (),
       fun _ _ => .ok []⟩
      [(1, ⟨"ACsid", "tok", some ⟨"ACsid", "tok"⟩⟩)] 1
      ("release_" ++ "+15551230000")).1 =
      CallbackReply.releaseReply "+15551230000"
        (.str "❓ Number `+15551230000` not found in your account.") :=
  (C4_token_round_trip ⟨true, true⟩
    ⟨fun _ => .unexpected, fun _ _ => .ok [], fun _ => .ok (),
     fun _ _ => .ok []⟩
    [(1, ⟨"ACsid", "tok", some ⟨"ACsid", "tok"⟩⟩)] 1
    "+15551230000" ⟨"ACsid", "tok"⟩ (by decide)).2.1

/-- Counterexample for C3 as stated: a `buy_`-prefixed callback token whose
payload does not start with "+" reaches the purchase provider call with that
unvalidated payload — the callback path performs no "+" check. -/
theorem C3_buy_callback_counterexample :
    pyStartswith "15551230000" "+" = false ∧
    ProviderCall.createNumber "15551230000" ∈
      (button_callback_handler ⟨true, true⟩
        ⟨fun _ => .unexpected, fun _ _ => .ok [], fun _ => .ok (),
         fun _ _ => .ok []⟩
        [(1, ⟨"ACsid", "tok", some ⟨"ACsid", "tok"⟩⟩)] 1
        "buy_15551230000").2.2 := by
  decide

/-- **C3 (amended).** The "+"-format precondition is enforced on the
`/buy_number` command path: the purchase provider operation is only ever
invoked with a "+"-prefixed argument there. On the buy-prefixed
button-callback path, however, the stripped payload is handed to the
purchase operation with no "+" check at all. -/
theorem C3_buy_plus_check_command_only :
    (∀ env args phone,
      ProviderCall.createNumber phone ∈ (buy_number_command env args).2 →
      pyStartswith phone "+" = true) ∧
    (∀ renv oenv store cid p c,
      (get_twilio_client renv store cid).1 = some c →
      ProviderCall.createNumber p ∈
        (button_callback_handler renv oenv store cid
          (BUY_CALLBACK ++ p)).2.2) := by
  constructor
  · intro env args phone hmem
    match args with
    | [] => simp [buy_number_command] at hmem
    | [a] =>
      by_cases hps : pyStartswith a "+" = true
      · rw [buy_number_command] at hmem
        rw [if_pos hps, buy_number_calls] at hmem
        simp at hmem
        rw [hmem]
        exact hps
      · rw [buy_number_command] at hmem
        rw [if_neg hps] at hmem
        simp at hmem
    | a :: b :: rest => simp [buy_number_command] at hmem
  · intro renv oenv store cid p c hres
    rcases hg : get_twilio_client renv store cid with ⟨o, st1, calls⟩
    rw [hg] at hres
    simp only at hres
    subst hres
    have h1 := pyStartswith_append BUY_CALLBACK p
    have hm : pyStartswith (BUY_CALLBACK ++ p) MAIN_MENU_CALLBACK = false :=
      pyStartswith_false_of_head_ne p rfl rfl (by decide)
    simp [button_callback_handler, button_callback_branches, h1, hm, hg,
      drop_length_append, buy_number_calls]

/-- Witness for C3's amended theorem: the command path invoked with a
well-formed argument, and the callback path reaching the purchase call. -/
theorem C3_buy_plus_check_command_only_witness :
    pyStartswith "+15551230000" "+" = true ∧
    ProviderCall.createNumber "+15551230000" ∈
      (button_callback_handler ⟨true, true⟩
        ⟨fun _ => .unexpected, fun _ _ => .ok [], fun _ => .ok (),
         fun _ _ => .ok []⟩
        [(1, ⟨"ACsid", "tok", some ⟨"ACsid", "tok"⟩⟩)] 1
        (BUY_CALLBACK ++ "+15551230000")).2.2 :=
  ⟨C3_buy_plus_check_command_only.1
      ⟨fun _ => .unexpected, fun _ _ => .ok [], fun _ => .ok (),
       fun _ _ => .ok []⟩
      ["+15551230000"] "+15551230000" (by decide),
   C3_buy_plus_check_command_only.2 ⟨true, true⟩
      ⟨fun _ => .unexpected, fun _ _ => .ok [], fun _ => .ok (),
       fun _ _ => .ok []⟩
      [(1, ⟨"ACsid", "tok", some ⟨"ACsid", "tok"⟩⟩)] 1
      "+15551230000" ⟨"ACsid", "tok"⟩ (by decide)⟩

/-- **C9.** For `check_sms_command`, an explicit limit of 0 or 21 is
rejected with the range message and a non-numeric limit with the type
message, in each case with no provider call; the boundary limits 1 and 20
are accepted and passed through to the operation unchanged. -/
theorem C9_check_sms_limit_bounds (env : OpEnv) (p s : String) :
    check_sms_command env [p, "0"] =
      (CmdReply.invalid "⚠️ Limit must be between 1 and 20.", []) ∧
    check_sms_command env [p, "21"] =
      (CmdReply.invalid "⚠️ Limit must be between 1 and 20.", []) ∧
    (pyInt s = none →
      check_sms_command env [p, s] =
        (CmdReply.invalid "⚠️ Invalid limit. It must be a number.", [])) ∧
    (pyStartswith p "+" = true →
      check_sms_command env [p, "1"] =
        (CmdReply.result (_internal_check_sms env p 1).1,
         (_internal_check_sms env p 1).2)) ∧
    (pyStartswith p "+" = true →
      check_sms_command env [p, "20"] =
        (CmdReply.result (_internal_check_sms env p 20).1,
         (_internal_check_sms env p 20).2)) := by
  refine ⟨?_, ?_, ?_, ?_, ?_⟩
  · simp [check_sms_command, show pyInt "0" = some 0 from rfl]
  · simp [check_sms_command, show pyInt "21" = some 21 from rfl]
  · intro h
    simp [check_sms_command, h]
  · intro hp
    simp [check_sms_command, show pyInt "1" = some 1 from rfl, hp]
  · intro hp
    simp [check_sms_command, show pyInt "20" = some 20 from rfl, hp]

/-- Witness for C9 at concrete inputs: rejections for 0, 21 and "abc";
pass-through for 1 and 20. -/
theorem C9_check_sms_limit_bounds_witness :
    check_sms_command
      ⟨fun _ => .unexpected, fun _ _ => .ok [], fun _ => .ok (),
       fun _ _ => .ok []⟩ ["+15551230000", "0"] =
      (CmdReply.invalid "⚠️ Limit must be between 1 and 20.", []) ∧
    check_sms_command
      ⟨fun _ => .unexpected, fun _ _ => .ok [], fun _ => .ok (),
       fun _ _ => .ok []⟩ ["+15551230000", "21"] =
      (CmdReply.invalid "⚠️ Limit must be between 1 and 20.", []) ∧
    check_sms_command
      ⟨fun _ => .unexpected, fun _ _ => .ok [], fun _ => .ok (),
       fun _ _ => .ok []⟩ ["+15551230000", "abc"] =
      (CmdReply.invalid "⚠️ Invalid limit. It must be a number.", []) ∧
    check_sms_command
      ⟨fun _ => .unexpected, fun _ _ => .ok [], fun _ => .ok (),
       fun _ _ => .ok []⟩ ["+15551230000", "1"] =
      (CmdReply.result
        (.str "🤔 You do not seem to own the number `+15551230000`, or it\'s not a Twilio number in your account."),
       [ProviderCall.listIncoming (some "+15551230000") 1]) ∧
    check_sms_command
      ⟨fun _ => .unexpected, fun _ _ => .ok [], fun _ => .ok (),
       fun _ _ => .ok []⟩ ["+15551230000", "20"] =
      (CmdReply.result
        (.str "🤔 You do not seem to own the number `+15551230000`, or it\'s not a Twilio number in your account."),
       [ProviderCall.listIncoming (some "+15551230000") 1]) := by
  have h := C9_check_sms_limit_bounds
    ⟨fun _ => .unexpected, fun _ _ => .ok [], fun _ => .ok (),
     fun _ _ => .ok []⟩ "+15551230000" "abc"
  exact ⟨h.1, h.2.1, h.2.2.1 (by decide), h.2.2.2.1 (by decide),
    h.2.2.2.2 (by decide)⟩

end TwixdBot
